import Mathlib

/-!
Verification of the token-lifecycle manager in `src/utils/auth.py`.

The Python module keeps two cached tokens in `st.session_state`
(`access_token_data` and `streamer_token_data`), refreshes them against two
HTTP endpoints, and reads a credential triple from `st.secrets`.

Shallow embedding choices:
* `st.session_state` becomes an explicit `SessionState` record threaded
  through each operation.
* `time.time()` becomes `Env.now : Int` (one clock reading per call, the
  acquisition instant; the spec reasons at second granularity).
* `st.secrets` becomes `Env.secrets : String → Option String` (`none` models
  a `KeyError` on lookup).
* The HTTP layer becomes `Env.http : NetCall → HttpResponse`; every request
  a call issues is recorded in an output trace, so "no network exchange"
  is `calls = []`.
* JSON bodies become the inductive `Jv`; a missing key is an `Err.keyError`,
  mirroring Python's `KeyError` propagation.
* Python exceptions become `Except Err`: `Err.valueError` for the
  `ValueError` in `load_credentials` (the spec's `ConfigurationError`),
  `Err.exchangeError` for `Exception(f"... error: {response.text}")`
  (the spec's `TokenExchangeError`).
-/

namespace TastyAuth

/-- A JSON value, as far as the module inspects response bodies. -/
inductive Jv where
  | str (s : String)
  | num (n : Int)
  | obj (fields : List (String × Jv))

/-- Python `d["k"]` on a JSON value: `none` models `KeyError`/`TypeError`. -/
def jGet : Jv → String → Option Jv
  | Jv.obj fs, k => fs.lookup k
  | _, _ => none

/-- Numeric coercion: `time.time() + expires_in` needs a number. -/
def Jv.asNum : Jv → Option Int
  | Jv.num n => some n
  | _ => none

/-- Python `f"{v}"` interpolation of a JSON value (used for the Bearer header). -/
def Jv.pyStr : Jv → String
  | Jv.str s => s
  | Jv.num n => toString n
  | Jv.obj _ => "<dict>"

/-- `st.session_state.access_token_data`: `{access_token, expires_at}`. -/
structure CachedAccess where
  access_token : Jv
  expires_at : Int

/-- `st.session_state.streamer_token_data`: `{token, expires_at}`. -/
structure CachedStreamer where
  token : Jv
  expires_at : Int

/-- The two cache slots held in `st.session_state`. -/
structure SessionState where
  access_token_data : Option CachedAccess
  streamer_token_data : Option CachedStreamer

/-- One HTTP request, as issued by `requests.post` / `requests.get`. -/
inductive NetCall where
  | post (url : String) (data : List (String × String))
  | get (url : String) (headers : List (String × String))

/-- The parts of a `requests` response the module reads. -/
structure HttpResponse where
  status_code : Int
  text : String
  json : Jv

/-- Ambient world: clock, `st.secrets`, and the network's response function. -/
structure Env where
  now : Int
  secrets : String → Option String
  http : NetCall → HttpResponse

/-- The bundle returned by `load_credentials`. -/
structure Credentials where
  client_id : String
  client_secret : String
  refresh_token : String

/-- The failure modes of the module (Python exception classes). -/
inductive Err where
  | valueError (msg : String)
  | exchangeError (msg : String)
  | keyError (key : String)
  | typeError (msg : String)

/-- Outcome of one acquisition call: result, final session state, requests issued. -/
structure RunResult (α : Type) where
  result : Except Err α
  state : SessionState
  calls : List NetCall

def missingSecretsMsg : String :=
  "Missing required secrets. Please set CLIENT_ID, CLIENT_SECRET, and REFRESH_TOKEN in Streamlit Cloud Secrets."

/-- `load_credentials`: reads the three secrets, `ValueError` if any is absent. -/
def load_credentials (env : Env) : Except Err Credentials :=
  match env.secrets "CLIENT_ID", env.secrets "CLIENT_SECRET", env.secrets "REFRESH_TOKEN" with
  | some cid, some cs, some rt => Except.ok ⟨cid, cs, rt⟩
  | _, _, _ => Except.error (Err.valueError missingSecretsMsg)

def oauthUrl : String := "https://api.tastytrade.com/oauth/token"

def quoteUrl : String := "https://api.tastyworks.com/api-quote-tokens"

/-- The `requests.post` issued by `get_access_token` (form body in source order). -/
def oauthCall (c : Credentials) : NetCall :=
  NetCall.post oauthUrl
    [("grant_type", "refresh_token"),
     ("refresh_token", c.refresh_token),
     ("client_id", c.client_id),
     ("client_secret", c.client_secret)]

/-- The `requests.get` issued by `get_streamer_token` with its Bearer header. -/
def quoteCall (tok : Jv) : NetCall :=
  NetCall.get quoteUrl [("Authorization", "Bearer " ++ tok.pyStr)]

/-- The early-return branch of `get_access_token`: `some v` iff `force_refresh`
is false, an `access_token_data` entry exists, and `expires_at > now + 60`. -/
def accessHit (env : Env) (st : SessionState) (force_refresh : Bool) : Option Jv :=
  if force_refresh = false then
    match st.access_token_data with
    | some td => if td.expires_at > env.now + 60 then some td.access_token else none
    | none => none
  else none

/-- The refresh path of `get_access_token` (everything after the cache check). -/
def refreshAccessToken (env : Env) (st : SessionState) : RunResult Jv :=
  match load_credentials env with
  | Except.error e => ⟨Except.error e, st, []⟩
  | Except.ok creds =>
    let call := oauthCall creds
    let resp := env.http call
    if resp.status_code ≠ 200 then
      ⟨Except.error (Err.exchangeError ("Token error: " ++ resp.text)), st, [call]⟩
    else
      match jGet resp.json "access_token" with
      | none => ⟨Except.error (Err.keyError "access_token"), st, [call]⟩
      | some tok =>
        match ((jGet resp.json "expires_in").getD (Jv.num 900)).asNum with
        | none => ⟨Except.error (Err.typeError "expires_in"), st, [call]⟩
        | some n =>
          ⟨Except.ok tok,
           { st with access_token_data := some ⟨tok, env.now + n⟩ },
           [call]⟩

/-- `get_access_token(force_refresh=False)` from `src/utils/auth.py`. -/
def get_access_token (env : Env) (st : SessionState) (force_refresh : Bool) : RunResult Jv :=
  match accessHit env st force_refresh with
  | some v => ⟨Except.ok v, st, []⟩
  | none => refreshAccessToken env st

/-- The early-return branch of `get_streamer_token` (300-second margin). -/
def streamerHit (env : Env) (st : SessionState) (force_refresh : Bool) : Option Jv :=
  if force_refresh = false then
    match st.streamer_token_data with
    | some td => if td.expires_at > env.now + 300 then some td.token else none
    | none => none
  else none

/-- The quote-endpoint exchange of `get_streamer_token`, entered with the
access token in hand and the requests issued so far. -/
def refreshStreamerToken (env : Env) (st : SessionState) (tok : Jv)
    (calls0 : List NetCall) : RunResult Jv :=
  let call := quoteCall tok
  let resp := env.http call
  if resp.status_code ≠ 200 then
    ⟨Except.error (Err.exchangeError ("Streamer token error: " ++ resp.text)), st,
     calls0 ++ [call]⟩
  else
    match jGet resp.json "data" with
    | none => ⟨Except.error (Err.keyError "data"), st, calls0 ++ [call]⟩
    | some d =>
      match jGet d "token" with
      | none => ⟨Except.error (Err.keyError "token"), st, calls0 ++ [call]⟩
      | some stok =>
        ⟨Except.ok stok,
         { st with streamer_token_data := some ⟨stok, env.now + 20 * 3600⟩ },
         calls0 ++ [call]⟩

/-- `get_streamer_token(access_token=None, force_refresh=False)` from
`src/utils/auth.py`. -/
def get_streamer_token (env : Env) (st : SessionState) (access_token : Option Jv)
    (force_refresh : Bool) : RunResult Jv :=
  match streamerHit env st force_refresh with
  | some v => ⟨Except.ok v, st, []⟩
  | none =>
    match access_token with
    | some tok => refreshStreamerToken env st tok []
    | none =>
      let r := get_access_token env st false
      match r.result with
      | Except.error e => ⟨Except.error e, r.state, r.calls⟩
      | Except.ok tok => refreshStreamerToken env r.state tok r.calls

/-- `ensure_streamer_token`: `get_streamer_token()` with all defaults. -/
def ensure_streamer_token (env : Env) (st : SessionState) : RunResult Jv :=
  get_streamer_token env st none false

/-- Number of `requests.post` calls in a trace. -/
def countPosts (l : List NetCall) : Nat :=
  l.countP fun c => match c with | NetCall.post _ _ => true | _ => false

/-- Number of `requests.get` calls in a trace. -/
def countGets (l : List NetCall) : Nat :=
  l.countP fun c => match c with | NetCall.get _ _ => true | _ => false

/-! ### Exhaustive branch descriptions of the two refresh paths -/

/-- Every run of the access refresh path lands in one of five branches:
missing credentials, non-success status, missing `access_token` field,
non-numeric `expires_in`, or success with a cache write. -/
theorem refreshAccessToken_cases (env : Env) (st : SessionState) :
    (load_credentials env = Except.error (Err.valueError missingSecretsMsg) ∧
      refreshAccessToken env st =
        ⟨Except.error (Err.valueError missingSecretsMsg), st, []⟩) ∨
    (∃ creds, load_credentials env = Except.ok creds ∧
      (((env.http (oauthCall creds)).status_code ≠ 200 ∧
        refreshAccessToken env st =
          ⟨Except.error (Err.exchangeError
              ("Token error: " ++ (env.http (oauthCall creds)).text)),
           st, [oauthCall creds]⟩) ∨
      ((env.http (oauthCall creds)).status_code = 200 ∧
        jGet (env.http (oauthCall creds)).json "access_token" = none ∧
        refreshAccessToken env st =
          ⟨Except.error (Err.keyError "access_token"), st, [oauthCall creds]⟩) ∨
      (∃ tok, (env.http (oauthCall creds)).status_code = 200 ∧
        jGet (env.http (oauthCall creds)).json "access_token" = some tok ∧
        ((((jGet (env.http (oauthCall creds)).json "expires_in").getD (Jv.num 900)).asNum = none ∧
          refreshAccessToken env st =
            ⟨Except.error (Err.typeError "expires_in"), st, [oauthCall creds]⟩) ∨
        (∃ n, ((jGet (env.http (oauthCall creds)).json "expires_in").getD (Jv.num 900)).asNum
              = some n ∧
          refreshAccessToken env st =
            ⟨Except.ok tok,
             { st with access_token_data := some ⟨tok, env.now + n⟩ },
             [oauthCall creds]⟩))))) := by
  by_cases hcred : ∃ creds, load_credentials env = Except.ok creds
  · obtain ⟨creds, hc⟩ := hcred
    right
    refine ⟨creds, hc, ?_⟩
    by_cases hs : (env.http (oauthCall creds)).status_code = 200
    · cases htok : jGet (env.http (oauthCall creds)).json "access_token" with
      | none =>
        right; left
        refine ⟨hs, rfl, ?_⟩
        simp only [refreshAccessToken, hc, hs, htok]
        simp
      | some tok =>
        right; right
        refine ⟨tok, hs, rfl, ?_⟩
        cases hn : ((jGet (env.http (oauthCall creds)).json "expires_in").getD (Jv.num 900)).asNum with
        | none =>
          left
          refine ⟨rfl, ?_⟩
          simp only [refreshAccessToken, hc, hs, htok, hn]
          simp
        | some n =>
          right
          refine ⟨n, rfl, ?_⟩
          simp only [refreshAccessToken, hc, hs, htok, hn]
          simp
    · left
      refine ⟨hs, ?_⟩
      simp only [refreshAccessToken, hc]
      simp [hs]
  · left
    have hc : load_credentials env = Except.error (Err.valueError missingSecretsMsg) := by
      unfold load_credentials
      unfold load_credentials at hcred
      push_neg at hcred
      cases h1 : env.secrets "CLIENT_ID" with
      | none => simp [h1]
      | some a =>
        cases h2 : env.secrets "CLIENT_SECRET" with
        | none => simp [h1, h2]
        | some b =>
          cases h3 : env.secrets "REFRESH_TOKEN" with
          | none => simp [h1, h2, h3]
          | some c =>
            exact absurd (by simp [h1, h2, h3]) (hcred ⟨a, b, c⟩)
    exact ⟨hc, by simp only [refreshAccessToken, hc]⟩

/-- Every run of the streamer exchange lands in one of four branches:
non-success status, missing `data` field, missing `token` field, or success
with a cache write; the quote request is issued in all of them. -/
theorem refreshStreamerToken_cases (env : Env) (st : SessionState) (tok : Jv)
    (calls0 : List NetCall) :
    ((env.http (quoteCall tok)).status_code ≠ 200 ∧
      refreshStreamerToken env st tok calls0 =
        ⟨Except.error (Err.exchangeError
            ("Streamer token error: " ++ (env.http (quoteCall tok)).text)),
         st, calls0 ++ [quoteCall tok]⟩) ∨
    ((env.http (quoteCall tok)).status_code = 200 ∧
      jGet (env.http (quoteCall tok)).json "data" = none ∧
      refreshStreamerToken env st tok calls0 =
        ⟨Except.error (Err.keyError "data"), st, calls0 ++ [quoteCall tok]⟩) ∨
    (∃ d, (env.http (quoteCall tok)).status_code = 200 ∧
      jGet (env.http (quoteCall tok)).json "data" = some d ∧
      jGet d "token" = none ∧
      refreshStreamerToken env st tok calls0 =
        ⟨Except.error (Err.keyError "token"), st, calls0 ++ [quoteCall tok]⟩) ∨
    (∃ d stok, (env.http (quoteCall tok)).status_code = 200 ∧
      jGet (env.http (quoteCall tok)).json "data" = some d ∧
      jGet d "token" = some stok ∧
      refreshStreamerToken env st tok calls0 =
        ⟨Except.ok stok,
         { st with streamer_token_data := some ⟨stok, env.now + 20 * 3600⟩ },
         calls0 ++ [quoteCall tok]⟩) := by
  by_cases hs : (env.http (quoteCall tok)).status_code = 200
  · cases hd : jGet (env.http (quoteCall tok)).json "data" with
    | none =>
      right; left
      refine ⟨hs, rfl, ?_⟩
      simp only [refreshStreamerToken, hs, hd]
      simp
    | some d =>
      cases ht : jGet d "token" with
      | none =>
        right; right; left
        refine ⟨d, hs, rfl, ht, ?_⟩
        simp only [refreshStreamerToken, hs, hd, ht]
        simp
      | some stok =>
        right; right; right
        refine ⟨d, stok, hs, rfl, ht, ?_⟩
        simp only [refreshStreamerToken, hs, hd, ht]
        simp
  · left
    refine ⟨hs, ?_⟩
    simp only [refreshStreamerToken]
    simp [hs]

/-! ### Frame and invariance helpers -/

/-- The quote exchange appends exactly one request to the trace, whatever
the response. -/
theorem refreshStreamerToken_calls (env : Env) (st : SessionState) (tok : Jv)
    (calls0 : List NetCall) :
    (refreshStreamerToken env st tok calls0).calls = calls0 ++ [quoteCall tok] := by
  unfold refreshStreamerToken
  by_cases hs : (env.http (quoteCall tok)).status_code = 200
  · cases hd : jGet (env.http (quoteCall tok)).json "data" with
    | none => simp [hs, hd]
    | some d =>
      cases ht : jGet d "token" with
      | none => simp [hs, hd, ht]
      | some stok => simp [hs, hd, ht]
  · simp [hs]

/-- The quote exchange never touches the access slot. -/
theorem refreshStreamerToken_access_frame (env : Env) (st : SessionState) (tok : Jv)
    (calls0 : List NetCall) :
    (refreshStreamerToken env st tok calls0).state.access_token_data
      = st.access_token_data := by
  unfold refreshStreamerToken
  by_cases hs : (env.http (quoteCall tok)).status_code = 200
  · cases hd : jGet (env.http (quoteCall tok)).json "data" with
    | none => simp [hs, hd]
    | some d =>
      cases ht : jGet d "token" with
      | none => simp [hs, hd, ht]
      | some stok => simp [hs, hd, ht]
  · simp [hs]

/-- The access refresh path never touches the streamer slot. -/
theorem refreshAccessToken_streamer_frame (env : Env) (st : SessionState) :
    (refreshAccessToken env st).state.streamer_token_data
      = st.streamer_token_data := by
  unfold refreshAccessToken
  cases hc : load_credentials env with
  | error e => simp
  | ok creds =>
    by_cases hs : (env.http (oauthCall creds)).status_code = 200
    · cases htok : jGet (env.http (oauthCall creds)).json "access_token" with
      | none => simp [hs, htok]
      | some tok =>
        cases hn : ((jGet (env.http (oauthCall creds)).json "expires_in").getD (Jv.num 900)).asNum with
        | none => simp [hs, htok, hn]
        | some n => simp [hs, htok, hn]
    · simp [hs]

/-- The access refresh path reads nothing from the session state: its result
and trace are the same for any two states, a success writes the same access
entry in both, and a failure leaves each state exactly as it was. -/
theorem refreshAccessToken_const (env : Env) (st st' : SessionState) :
    (refreshAccessToken env st).result = (refreshAccessToken env st').result ∧
    (refreshAccessToken env st).calls = (refreshAccessToken env st').calls ∧
    (∀ v, (refreshAccessToken env st).result = Except.ok v →
      (refreshAccessToken env st).state.access_token_data
        = (refreshAccessToken env st').state.access_token_data) ∧
    (∀ e, (refreshAccessToken env st).result = Except.error e →
      (refreshAccessToken env st).state = st ∧
      (refreshAccessToken env st').state = st') := by
  unfold refreshAccessToken
  cases hc : load_credentials env with
  | error e => simp
  | ok creds =>
    by_cases hs : (env.http (oauthCall creds)).status_code = 200
    · cases htok : jGet (env.http (oauthCall creds)).json "access_token" with
      | none => simp [hs, htok]
      | some tok =>
        cases hn : ((jGet (env.http (oauthCall creds)).json "expires_in").getD (Jv.num 900)).asNum with
        | none => simp [hs, htok, hn]
        | some n => simp [hs, htok, hn]
    · simp [hs]

/-- Cache miss reduces `get_access_token` to the refresh path. -/
theorem get_access_token_of_miss (env : Env) (st : SessionState) (force : Bool)
    (h : accessHit env st force = none) :
    get_access_token env st force = refreshAccessToken env st := by
  simp [get_access_token, h]

/-- Cache hit short-circuits `get_access_token`. -/
theorem get_access_token_of_hit (env : Env) (st : SessionState) (force : Bool) (v : Jv)
    (h : accessHit env st force = some v) :
    get_access_token env st force = ⟨Except.ok v, st, []⟩ := by
  simp [get_access_token, h]

/-- Cache miss with a supplied access token reduces `get_streamer_token` to
the quote exchange on that token. -/
theorem get_streamer_token_supplied (env : Env) (st : SessionState) (tok : Jv) (force : Bool)
    (h : streamerHit env st force = none) :
    get_streamer_token env st (some tok) force = refreshStreamerToken env st tok [] := by
  simp [get_streamer_token, h]

/-- Cache miss with no supplied access token: the nested access acquisition
runs first, then the quote exchange on its result. -/
theorem get_streamer_token_auto (env : Env) (st : SessionState) (force : Bool)
    (h : streamerHit env st force = none) :
    get_streamer_token env st none force =
      match (get_access_token env st false).result with
      | Except.error e =>
        ⟨Except.error e, (get_access_token env st false).state,
         (get_access_token env st false).calls⟩
      | Except.ok tok =>
        refreshStreamerToken env (get_access_token env st false).state tok
          (get_access_token env st false).calls := by
  simp only [get_streamer_token, h]

/-- An acquisition that issued no request can only have been a cache hit or a
credential failure; on a cache miss it is the credential failure. -/
theorem get_access_token_no_call (env : Env) (st : SessionState) (force : Bool)
    (hmiss : accessHit env st force = none)
    (hcalls : (get_access_token env st force).calls = []) :
    (get_access_token env st force).result
      = Except.error (Err.valueError missingSecretsMsg) := by
  rw [get_access_token_of_miss env st force hmiss] at hcalls ⊢
  rcases refreshAccessToken_cases env st with ⟨-, he⟩ | ⟨creds, -, hrest⟩
  · rw [he]
  · rcases hrest with ⟨-, he⟩ | ⟨-, -, he⟩ | ⟨tok, -, -, ⟨-, he⟩ | ⟨n, -, he⟩⟩ <;>
      simp [he] at hcalls

/-- A streamer acquisition that issued no request and missed the cache fails. -/
theorem get_streamer_token_no_call (env : Env) (st : SessionState) (a : Option Jv)
    (force : Bool) (hmiss : streamerHit env st force = none)
    (hcalls : (get_streamer_token env st a force).calls = []) :
    ∃ e, (get_streamer_token env st a force).result = Except.error e := by
  cases a with
  | some tok =>
    rw [get_streamer_token_supplied env st tok force hmiss] at hcalls
    rw [refreshStreamerToken_calls] at hcalls
    simp at hcalls
  | none =>
    rw [get_streamer_token_auto env st force hmiss] at hcalls ⊢
    cases hr : (get_access_token env st false).result with
    | error e => simp [hr]
    | ok tok =>
      rw [hr] at hcalls
      simp only at hcalls
      rw [refreshStreamerToken_calls] at hcalls
      simp at hcalls

/-! ### Concrete worlds used to witness the theorems -/

/-- Healthy world: all three secrets present, both endpoints succeed with the
bodies of the spec's end-to-end scenario. -/
def envGood : Env :=
  { now := 1000
    secrets := fun k =>
      if k = "CLIENT_ID" then some "c1"
      else if k = "CLIENT_SECRET" then some "s1"
      else if k = "REFRESH_TOKEN" then some "r1"
      else none
    http := fun c =>
      match c with
      | NetCall.post _ _ =>
        ⟨200, "", Jv.obj [("access_token", Jv.str "AT1"), ("expires_in", Jv.num 900)]⟩
      | NetCall.get _ _ =>
        ⟨200, "", Jv.obj [("data", Jv.obj [("token", Jv.str "ST1")])]⟩ }

/-- World whose endpoints always answer a non-success status. -/
def envDown : Env := { envGood with http := fun _ => ⟨503, "upstream down", Jv.obj []⟩ }

/-- World with an empty credential store. -/
def envNoSecrets : Env := { envGood with secrets := fun _ => none }

/-- World answering success with bodies missing the required fields. -/
def envMalformed : Env := { envGood with http := fun _ => ⟨200, "", Jv.obj []⟩ }

/-- World whose token endpoint omits `expires_in` (and whose quote endpoint
body carries an extra expiry-like field that must be ignored). -/
def envNoExpiry : Env :=
  { envGood with http := fun c =>
      match c with
      | NetCall.post _ _ => ⟨200, "", Jv.obj [("access_token", Jv.str "AT2")]⟩
      | NetCall.get _ _ =>
        ⟨200, "",
         Jv.obj [("data", Jv.obj [("token", Jv.str "ST2"), ("expires_in", Jv.num 5)]),
                 ("expires_in", Jv.num 7)]⟩ }

/-- Cold cache. -/
def stEmpty : SessionState := ⟨none, none⟩

/-- Cache whose entries are just inside the margins at `now = 1000`:
access expires at 1061 (margin 60), streamer at 1301 (margin 300). -/
def stWarm : SessionState :=
  ⟨some ⟨Jv.str "ATold", 1061⟩, some ⟨Jv.str "STold", 1301⟩⟩

/-- Cache whose entries are just outside the margins at `now = 1000`:
access expires at 1059, streamer at 1299. -/
def stStale : SessionState :=
  ⟨some ⟨Jv.str "ATold", 1059⟩, some ⟨Jv.str "STold", 1299⟩⟩

/-! ### Claims -/

/-- C1: with `force_refresh=False` and a cached entry present, the access
acquisition returns the cached value with no network request iff
`expires_at > now + 60`, and the streamer acquisition (for any
`access_token` argument) does so iff `expires_at > now + 300`; a stale
entry sends either function down its refresh path. -/
theorem freshness_boundary (env : Env) (st : SessionState) :
    (∀ td, st.access_token_data = some td →
      (((get_access_token env st false).result = Except.ok td.access_token ∧
        (get_access_token env st false).calls = []) ↔
       td.expires_at > env.now + 60)) ∧
    (∀ td a, st.streamer_token_data = some td →
      (((get_streamer_token env st a false).result = Except.ok td.token ∧
        (get_streamer_token env st a false).calls = []) ↔
       td.expires_at > env.now + 300)) ∧
    (∀ td, st.access_token_data = some td → ¬ td.expires_at > env.now + 60 →
      get_access_token env st false = refreshAccessToken env st) ∧
    (∀ td, st.streamer_token_data = some td → ¬ td.expires_at > env.now + 300 →
      streamerHit env st false = none) := by
  refine ⟨?_, ?_, ?_, ?_⟩
  · intro td h
    by_cases hf : td.expires_at > env.now + 60
    · have hhit : accessHit env st false = some td.access_token := by
        simp [accessHit, h, hf]
      rw [get_access_token_of_hit env st false td.access_token hhit]
      exact ⟨fun _ => hf, fun _ => ⟨rfl, rfl⟩⟩
    · have hmiss : accessHit env st false = none := by
        simp [accessHit, h, hf]
      constructor
      · rintro ⟨h1, h2⟩
        have he := get_access_token_no_call env st false hmiss h2
        rw [he] at h1
        exact absurd h1 (by simp)
      · intro hr
        exact absurd hr hf
  · intro td a h
    by_cases hf : td.expires_at > env.now + 300
    · have hhit : streamerHit env st false = some td.token := by
        simp [streamerHit, h, hf]
      have hrun : get_streamer_token env st a false = ⟨Except.ok td.token, st, []⟩ := by
        simp [get_streamer_token, hhit]
      rw [hrun]
      exact ⟨fun _ => hf, fun _ => ⟨rfl, rfl⟩⟩
    · have hmiss : streamerHit env st false = none := by
        simp [streamerHit, h, hf]
      constructor
      · rintro ⟨h1, h2⟩
        obtain ⟨e, he⟩ := get_streamer_token_no_call env st a false hmiss h2
        rw [he] at h1
        exact absurd h1 (by simp)
      · intro hr
        exact absurd hr hf
  · intro td h hf
    exact get_access_token_of_miss env st false (by simp [accessHit, h, hf])
  · intro td h hf
    simp [streamerHit, h, hf]

/-- Witness for C1 at `now = 1000`: entries expiring at 1061/1301 are served
from cache with no request; entries expiring at 1059/1299 go to the refresh
path. -/
theorem freshness_boundary_witness :
    ((get_access_token envGood stWarm false).result = Except.ok (Jv.str "ATold") ∧
      (get_access_token envGood stWarm false).calls = []) ∧
    ((get_streamer_token envGood stWarm none false).result = Except.ok (Jv.str "STold") ∧
      (get_streamer_token envGood stWarm none false).calls = []) ∧
    get_access_token envGood stStale false = refreshAccessToken envGood stStale ∧
    streamerHit envGood stStale false = none :=
  ⟨((freshness_boundary envGood stWarm).1 ⟨Jv.str "ATold", 1061⟩ rfl).mpr (by decide),
   ((freshness_boundary envGood stWarm).2.1 ⟨Jv.str "STold", 1301⟩ none rfl).mpr (by decide),
   (freshness_boundary envGood stStale).2.2.1 ⟨Jv.str "ATold", 1059⟩ rfl (by decide),
   (freshness_boundary envGood stStale).2.2.2 ⟨Jv.str "STold", 1299⟩ rfl (by decide)⟩

/-- C2: when every upstream answer is non-success, both acquisitions leave
the whole session state (hence each pre-existing entry) exactly as it was,
and any call that misses its cache fails with an error. -/
theorem refresh_failure_preserves_cache (env : Env) (st : SessionState)
    (h200 : ∀ c, (env.http c).status_code ≠ 200) :
    (∀ force, (get_access_token env st force).state = st ∧
      (accessHit env st force = none →
        ∃ e, (get_access_token env st force).result = Except.error e)) ∧
    (∀ a force, (get_streamer_token env st a force).state = st ∧
      (streamerHit env st force = none →
        ∃ e, (get_streamer_token env st a force).result = Except.error e)) := by
  have hacc : ∀ force, (get_access_token env st force).state = st ∧
      (accessHit env st force = none →
        ∃ e, (get_access_token env st force).result = Except.error e) := by
    intro force
    cases hhit : accessHit env st force with
    | some v =>
      rw [get_access_token_of_hit env st force v hhit]
      exact ⟨rfl, fun hc => Option.noConfusion hc⟩
    | none =>
      rw [get_access_token_of_miss env st force hhit]
      rcases refreshAccessToken_cases env st with ⟨-, he⟩ |
        ⟨creds, -, ⟨-, he⟩ | ⟨hs, -, -⟩ | ⟨tok, hs, -, -⟩⟩
      · rw [he]
        exact ⟨rfl, fun _ => ⟨_, rfl⟩⟩
      · rw [he]
        exact ⟨rfl, fun _ => ⟨_, rfl⟩⟩
      · exact absurd hs (h200 _)
      · exact absurd hs (h200 _)
  refine ⟨hacc, ?_⟩
  intro a force
  cases hhit : streamerHit env st force with
  | some v =>
    have hrun : get_streamer_token env st a force = ⟨Except.ok v, st, []⟩ := by
      simp [get_streamer_token, hhit]
    rw [hrun]
    exact ⟨rfl, fun hc => Option.noConfusion hc⟩
  | none =>
    have hq : ∀ st0 tok calls0,
        (refreshStreamerToken env st0 tok calls0).state = st0 ∧
        ∃ e, (refreshStreamerToken env st0 tok calls0).result = Except.error e := by
      intro st0 tok calls0
      rcases refreshStreamerToken_cases env st0 tok calls0 with
        ⟨-, he⟩ | ⟨hs, -, -⟩ | ⟨d, hs, -, -, -⟩ | ⟨d, stok, hs, -, -, -⟩
      · rw [he]
        exact ⟨rfl, _, rfl⟩
      · exact absurd hs (h200 _)
      · exact absurd hs (h200 _)
      · exact absurd hs (h200 _)
    cases a with
    | some tok =>
      rw [get_streamer_token_supplied env st tok force hhit]
      obtain ⟨h1, e, h2⟩ := hq st tok []
      exact ⟨h1, fun _ => ⟨e, h2⟩⟩
    | none =>
      rw [get_streamer_token_auto env st force hhit]
      cases hr : (get_access_token env st false).result with
      | error e =>
        exact ⟨(hacc false).1, fun _ => ⟨e, rfl⟩⟩
      | ok tok =>
        obtain ⟨h1, e, h2⟩ := hq (get_access_token env st false).state tok
          (get_access_token env st false).calls
        exact ⟨h1.trans (hacc false).1, fun _ => ⟨e, h2⟩⟩

/-- Witness for C2 in a world that answers 503 everywhere: both stale
entries survive unchanged and both forced calls fail. -/
theorem refresh_failure_preserves_cache_witness :
    (get_access_token envDown stStale true).state = stStale ∧
    (∃ e, (get_access_token envDown stStale true).result = Except.error e) ∧
    (get_streamer_token envDown stStale none true).state = stStale ∧
    (∃ e, (get_streamer_token envDown stStale none true).result = Except.error e) := by
  have h200 : ∀ c, (envDown.http c).status_code ≠ 200 := by
    intro c
    simp [envDown]
  have h := refresh_failure_preserves_cache envDown stStale h200
  exact ⟨(h.1 true).1, (h.1 true).2 rfl, (h.2 none true).1, (h.2 none true).2 rfl⟩

/-- C3: with `force_refresh=True` a successful result always required at
least one request, the success overwrites the cache slot of its kind with
the new token and a freshly computed expiry, and whenever the exchange is
reachable (credentials load, or an access token is supplied) exactly the
one exchange request is issued, regardless of cache freshness. -/
theorem forced_refresh_bypass (env : Env) (st : SessionState) :
    ((∀ v, (get_access_token env st true).result = Except.ok v →
        (get_access_token env st true).calls ≠ [] ∧
        ∃ n, (get_access_token env st true).state.access_token_data
          = some ⟨v, env.now + n⟩) ∧
      (∀ creds, load_credentials env = Except.ok creds →
        (get_access_token env st true).calls = [oauthCall creds])) ∧
    (∀ a, (∀ v, (get_streamer_token env st a true).result = Except.ok v →
        (get_streamer_token env st a true).calls ≠ [] ∧
        (get_streamer_token env st a true).state.streamer_token_data
          = some ⟨v, env.now + 20 * 3600⟩) ∧
      (∀ tok, a = some tok →
        (get_streamer_token env st a true).calls = [quoteCall tok])) := by
  have hmissA : accessHit env st true = none := rfl
  have hmissS : streamerHit env st true = none := rfl
  constructor
  · rw [get_access_token_of_miss env st true hmissA]
    constructor
    · intro v hv
      rcases refreshAccessToken_cases env st with ⟨hc, he⟩ |
        ⟨creds, hc, ⟨-, he⟩ | ⟨-, -, he⟩ | ⟨tok, -, -, ⟨-, he⟩ | ⟨n, -, he⟩⟩⟩ <;>
        rw [he] at hv <;> simp at hv
      rw [he]
      rw [← hv]
      exact ⟨by simp, n, rfl⟩
    · intro creds' hc'
      rcases refreshAccessToken_cases env st with ⟨hc, he⟩ |
        ⟨creds, hc, ⟨-, he⟩ | ⟨-, -, he⟩ | ⟨tok, -, -, ⟨-, he⟩ | ⟨n, -, he⟩⟩⟩
      · rw [hc] at hc'
        simp at hc'
      all_goals
        rw [hc] at hc'
        simp only [Except.ok.injEq] at hc'
        subst hc'
        simp [he]
  · intro a
    cases a with
    | some tok =>
      rw [get_streamer_token_supplied env st tok true hmissS]
      constructor
      · intro v hv
        rcases refreshStreamerToken_cases env st tok [] with
          ⟨-, he⟩ | ⟨-, -, he⟩ | ⟨d, -, -, -, he⟩ | ⟨d, stok, -, -, -, he⟩ <;>
          rw [he] at hv ⊢ <;> simp at hv
        subst hv
        exact ⟨by simp, rfl⟩
      · intro tok' htok'
        have htt : tok' = tok := by
          simpa using htok'.symm
        subst htt
        rw [refreshStreamerToken_calls]
        simp
    | none =>
      rw [get_streamer_token_auto env st true hmissS]
      constructor
      · intro v hv
        cases hr : (get_access_token env st false).result with
        | error e =>
          rw [hr] at hv
          simp at hv
        | ok tok =>
          rw [hr] at hv
          have hv' : (refreshStreamerToken env (get_access_token env st false).state tok
              (get_access_token env st false).calls).result = Except.ok v := hv
          have main : (refreshStreamerToken env (get_access_token env st false).state tok
                (get_access_token env st false).calls).calls ≠ [] ∧
              (refreshStreamerToken env (get_access_token env st false).state tok
                (get_access_token env st false).calls).state.streamer_token_data
                = some ⟨v, env.now + 20 * 3600⟩ := by
            rcases refreshStreamerToken_cases env (get_access_token env st false).state tok
                (get_access_token env st false).calls with
              ⟨-, he⟩ | ⟨-, -, he⟩ | ⟨d, -, -, -, he⟩ | ⟨d, stok, -, -, -, he⟩ <;>
              rw [he] at hv' ⊢ <;> simp at hv'
            subst hv'
            exact ⟨by simp, rfl⟩
          exact main
      · intro tok htok
        simp at htok

/-- Witness for C3 at a fully fresh cache: the forced access call still posts
to the token endpoint and rewrites the access entry, and the forced streamer
call still hits the quote endpoint and rewrites the streamer entry. -/
theorem forced_refresh_bypass_witness :
    ((get_access_token envGood stWarm true).calls ≠ [] ∧
      ∃ n, (get_access_token envGood stWarm true).state.access_token_data
        = some ⟨Jv.str "AT1", envGood.now + n⟩) ∧
    (get_access_token envGood stWarm true).calls = [oauthCall ⟨"c1", "s1", "r1"⟩] ∧
    ((get_streamer_token envGood stWarm (some (Jv.str "X")) true).calls ≠ [] ∧
      (get_streamer_token envGood stWarm (some (Jv.str "X")) true).state.streamer_token_data
        = some ⟨Jv.str "ST1", envGood.now + 20 * 3600⟩) ∧
    (get_streamer_token envGood stWarm (some (Jv.str "X")) true).calls
      = [quoteCall (Jv.str "X")] :=
  ⟨(forced_refresh_bypass envGood stWarm).1.1 (Jv.str "AT1") rfl,
   (forced_refresh_bypass envGood stWarm).1.2 ⟨"c1", "s1", "r1"⟩ rfl,
   ((forced_refresh_bypass envGood stWarm).2 (some (Jv.str "X"))).1 (Jv.str "ST1") rfl,
   ((forced_refresh_bypass envGood stWarm).2 (some (Jv.str "X"))).2 (Jv.str "X") rfl⟩

/-- C4: `ensure_streamer_token` is exactly `get_streamer_token` with no
access token and no forcing; on the cold cache in the spec's scenario world
it returns `"ST1"` after one POST and one GET, and an immediate second call
returns `"ST1"` again with no request and no state change. -/
theorem end_to_end_cold_cache :
    (∀ env st, ensure_streamer_token env st = get_streamer_token env st none false) ∧
    (ensure_streamer_token envGood stEmpty).result = Except.ok (Jv.str "ST1") ∧
    (ensure_streamer_token envGood stEmpty).calls
      = [oauthCall ⟨"c1", "s1", "r1"⟩, quoteCall (Jv.str "AT1")] ∧
    (ensure_streamer_token envGood (ensure_streamer_token envGood stEmpty).state).result
      = Except.ok (Jv.str "ST1") ∧
    (ensure_streamer_token envGood (ensure_streamer_token envGood stEmpty).state).calls
      = [] ∧
    (ensure_streamer_token envGood (ensure_streamer_token envGood stEmpty).state).state
      = (ensure_streamer_token envGood stEmpty).state :=
  ⟨fun _ _ => rfl, rfl, rfl, rfl, rfl, rfl⟩

/-- C5: on a successful exchange reached past the cache, a missing
`expires_in` caches the access token until `now + 900`, a numeric
`expires_in` is used instead, and a successful streamer exchange always
caches until `now + 72000`, whatever the response body carries. -/
theorem cache_ttl_policy (env : Env) (st : SessionState) :
    (∀ force creds, load_credentials env = Except.ok creds →
      accessHit env st force = none →
      (env.http (oauthCall creds)).status_code = 200 →
      ∀ tok, jGet (env.http (oauthCall creds)).json "access_token" = some tok →
      ((jGet (env.http (oauthCall creds)).json "expires_in" = none →
        (get_access_token env st force).result = Except.ok tok ∧
        (get_access_token env st force).state.access_token_data
          = some ⟨tok, env.now + 900⟩) ∧
      (∀ n, jGet (env.http (oauthCall creds)).json "expires_in" = some (Jv.num n) →
        (get_access_token env st force).result = Except.ok tok ∧
        (get_access_token env st force).state.access_token_data
          = some ⟨tok, env.now + n⟩))) ∧
    (∀ force atok, streamerHit env st force = none →
      (env.http (quoteCall atok)).status_code = 200 →
      ∀ d stok, jGet (env.http (quoteCall atok)).json "data" = some d →
      jGet d "token" = some stok →
      (get_streamer_token env st (some atok) force).result = Except.ok stok ∧
      (get_streamer_token env st (some atok) force).state.streamer_token_data
        = some ⟨stok, env.now + 72000⟩) := by
  constructor
  · intro force creds hc hmiss hs tok htok
    rw [get_access_token_of_miss env st force hmiss]
    constructor
    · intro hein
      simp [refreshAccessToken, hc, hs, htok, hein, Jv.asNum]
    · intro n hein
      simp [refreshAccessToken, hc, hs, htok, hein, Jv.asNum]
  · intro force atok hmiss hs d stok hd ht
    rw [get_streamer_token_supplied env st atok force hmiss]
    have h72 : (20 : Int) * 3600 = 72000 := by norm_num
    simp [refreshStreamerToken, hs, hd, ht, h72]

/-- Witness for C5: an omitted `expires_in` gives expiry 1900 at `now = 1000`,
a present one is honoured, and the streamer entry expires at 73000 even
though its body carries expiry-like fields. -/
theorem cache_ttl_policy_witness :
    ((get_access_token envNoExpiry stEmpty false).result = Except.ok (Jv.str "AT2") ∧
      (get_access_token envNoExpiry stEmpty false).state.access_token_data
        = some ⟨Jv.str "AT2", 1000 + 900⟩) ∧
    ((get_access_token envGood stEmpty false).result = Except.ok (Jv.str "AT1") ∧
      (get_access_token envGood stEmpty false).state.access_token_data
        = some ⟨Jv.str "AT1", 1000 + 900⟩) ∧
    ((get_streamer_token envNoExpiry stEmpty (some (Jv.str "AT2")) false).result
        = Except.ok (Jv.str "ST2") ∧
      (get_streamer_token envNoExpiry stEmpty (some (Jv.str "AT2")) false).state.streamer_token_data
        = some ⟨Jv.str "ST2", 1000 + 72000⟩) :=
  ⟨((cache_ttl_policy envNoExpiry stEmpty).1 false ⟨"c1", "s1", "r1"⟩ rfl rfl rfl
      (Jv.str "AT2") rfl).1 rfl,
   ((cache_ttl_policy envGood stEmpty).1 false ⟨"c1", "s1", "r1"⟩ rfl rfl rfl
      (Jv.str "AT1") rfl).2 900 rfl,
   (cache_ttl_policy envNoExpiry stEmpty).2 false (Jv.str "AT2") rfl rfl
      (Jv.obj [("token", Jv.str "ST2"), ("expires_in", Jv.num 5)]) (Jv.str "ST2") rfl rfl⟩

/-- C6: a non-success upstream status makes the acquisition fail with the
exchange error whose message embeds the upstream body text, after exactly
the one exchange request; and no acquisition ever issues two requests to
the same endpoint (no internal retry). -/
theorem nonsuccess_exchange_error (env : Env) (st : SessionState) :
    (∀ force creds, load_credentials env = Except.ok creds →
      accessHit env st force = none →
      (env.http (oauthCall creds)).status_code ≠ 200 →
      (get_access_token env st force).result =
        Except.error (Err.exchangeError
          ("Token error: " ++ (env.http (oauthCall creds)).text)) ∧
      (get_access_token env st force).calls = [oauthCall creds]) ∧
    (∀ force atok, streamerHit env st force = none →
      (env.http (quoteCall atok)).status_code ≠ 200 →
      (get_streamer_token env st (some atok) force).result =
        Except.error (Err.exchangeError
          ("Streamer token error: " ++ (env.http (quoteCall atok)).text)) ∧
      (get_streamer_token env st (some atok) force).calls = [quoteCall atok]) ∧
    (∀ force, countPosts (get_access_token env st force).calls ≤ 1 ∧
      countGets (get_access_token env st force).calls = 0) ∧
    (∀ a force, countPosts (get_streamer_token env st a force).calls ≤ 1 ∧
      countGets (get_streamer_token env st a force).calls ≤ 1) := by
  have haccCalls : ∀ force, (get_access_token env st force).calls = [] ∨
      ∃ creds, (get_access_token env st force).calls = [oauthCall creds] := by
    intro force
    cases hhit : accessHit env st force with
    | some v =>
      rw [get_access_token_of_hit env st force v hhit]
      exact Or.inl rfl
    | none =>
      rw [get_access_token_of_miss env st force hhit]
      rcases refreshAccessToken_cases env st with ⟨-, he⟩ |
        ⟨creds, -, ⟨-, he⟩ | ⟨-, -, he⟩ | ⟨tok, -, -, ⟨-, he⟩ | ⟨n, -, he⟩⟩⟩ <;>
        rw [he]
      · exact Or.inl rfl
      all_goals exact Or.inr ⟨creds, rfl⟩
  constructor
  · intro force creds hc hmiss hs
    rw [get_access_token_of_miss env st force hmiss]
    simp [refreshAccessToken, hc, hs]
  constructor
  · intro force atok hmiss hs
    rw [get_streamer_token_supplied env st atok force hmiss]
    simp [refreshStreamerToken, hs]
  constructor
  · intro force
    rcases haccCalls force with h | ⟨creds, h⟩ <;>
      simp [h, countPosts, countGets, oauthCall]
  · intro a force
    cases hhit : streamerHit env st force with
    | some v =>
      have hrun : get_streamer_token env st a force = ⟨Except.ok v, st, []⟩ := by
        simp [get_streamer_token, hhit]
      simp [hrun, countPosts, countGets]
    | none =>
      cases a with
      | some tok =>
        rw [get_streamer_token_supplied env st tok force hhit]
        rw [refreshStreamerToken_calls]
        simp [countPosts, countGets, quoteCall]
      | none =>
        rw [get_streamer_token_auto env st force hhit]
        cases hr : (get_access_token env st false).result with
        | error e =>
          rcases haccCalls false with h | ⟨creds, h⟩ <;>
            simp [hr, h, countPosts, countGets, oauthCall]
        | ok tok =>
          have main : countPosts (refreshStreamerToken env
                (get_access_token env st false).state tok
                (get_access_token env st false).calls).calls ≤ 1 ∧
              countGets (refreshStreamerToken env
                (get_access_token env st false).state tok
                (get_access_token env st false).calls).calls ≤ 1 := by
            rw [refreshStreamerToken_calls]
            rcases haccCalls false with h | ⟨creds, h⟩ <;>
              simp [h, countPosts, countGets, oauthCall, quoteCall, List.countP_append]
          exact main

/-- Witness for C6 in the 503 world: the access call fails with
`Token error: upstream down` after one POST, the streamer call with
`Streamer token error: upstream down` after one GET, and no trace repeats
an endpoint. -/
theorem nonsuccess_exchange_error_witness :
    ((get_access_token envDown stEmpty false).result =
      Except.error (Err.exchangeError ("Token error: " ++ "upstream down")) ∧
      (get_access_token envDown stEmpty false).calls = [oauthCall ⟨"c1", "s1", "r1"⟩]) ∧
    ((get_streamer_token envDown stEmpty (some (Jv.str "A")) false).result =
      Except.error (Err.exchangeError ("Streamer token error: " ++ "upstream down")) ∧
      (get_streamer_token envDown stEmpty (some (Jv.str "A")) false).calls
        = [quoteCall (Jv.str "A")]) ∧
    (countPosts (get_access_token envDown stEmpty false).calls ≤ 1 ∧
      countGets (get_access_token envDown stEmpty false).calls = 0) ∧
    (countPosts (get_streamer_token envDown stEmpty none false).calls ≤ 1 ∧
      countGets (get_streamer_token envDown stEmpty none false).calls ≤ 1) :=
  ⟨(nonsuccess_exchange_error envDown stEmpty).1 false ⟨"c1", "s1", "r1"⟩ rfl rfl
      (by decide),
   (nonsuccess_exchange_error envDown stEmpty).2.1 false (Jv.str "A") rfl (by decide),
   (nonsuccess_exchange_error envDown stEmpty).2.2.1 false,
   (nonsuccess_exchange_error envDown stEmpty).2.2.2 none false⟩

/-- C7: a credential store missing any of the three secrets makes
`load_credentials` (and any acquisition that reaches the refresh path) fail
with the configuration `ValueError`, a different error from the exchange
error; with all three present it returns exactly that triple. -/
theorem load_credentials_spec (env : Env) (st : SessionState) :
    ((env.secrets "CLIENT_ID" = none ∨ env.secrets "CLIENT_SECRET" = none ∨
        env.secrets "REFRESH_TOKEN" = none) →
      load_credentials env = Except.error (Err.valueError missingSecretsMsg) ∧
      get_access_token env st true =
        ⟨Except.error (Err.valueError missingSecretsMsg), st, []⟩) ∧
    (∀ a b c, env.secrets "CLIENT_ID" = some a → env.secrets "CLIENT_SECRET" = some b →
      env.secrets "REFRESH_TOKEN" = some c →
      load_credentials env = Except.ok ⟨a, b, c⟩) ∧
    (∀ m m', Err.valueError m ≠ Err.exchangeError m') := by
  refine ⟨?_, ?_, ?_⟩
  · intro h
    have hload : load_credentials env = Except.error (Err.valueError missingSecretsMsg) := by
      unfold load_credentials
      cases h1 : env.secrets "CLIENT_ID" <;>
        cases h2 : env.secrets "CLIENT_SECRET" <;>
        cases h3 : env.secrets "REFRESH_TOKEN" <;>
        simp_all
    refine ⟨hload, ?_⟩
    have hmiss : accessHit env st true = none := rfl
    rw [get_access_token_of_miss env st true hmiss]
    simp [refreshAccessToken, hload]
  · intro a b c h1 h2 h3
    simp [load_credentials, h1, h2, h3]
  · intro m m' h
    cases h

/-- Witness for C7: the empty store fails both `load_credentials` and a
forced acquisition; the good store returns `{c1, s1, r1}`; the two error
shapes differ. -/
theorem load_credentials_spec_witness :
    (load_credentials envNoSecrets = Except.error (Err.valueError missingSecretsMsg) ∧
      get_access_token envNoSecrets stEmpty true =
        ⟨Except.error (Err.valueError missingSecretsMsg), stEmpty, []⟩) ∧
    load_credentials envGood = Except.ok ⟨"c1", "s1", "r1"⟩ ∧
    Err.valueError "a" ≠ Err.exchangeError "b" :=
  ⟨(load_credentials_spec envNoSecrets stEmpty).1 (Or.inl rfl),
   (load_credentials_spec envGood stEmpty).2.1 "c1" "s1" "r1" rfl rfl rfl,
   (load_credentials_spec envGood stEmpty).2.2 "a" "b"⟩

/-- C8: while the streamer entry is fresh and unforced, the run is the same
fixed cache-hit triple for every `access_token` argument (same result, no
request, untouched state); and on the refresh path a supplied access token
is sent as-is in the one Bearer request, with no freshness check or access
refresh (access slot untouched, no other request). -/
theorem streamer_access_arg_independence (env : Env) (st : SessionState) :
    (∀ td, st.streamer_token_data = some td → td.expires_at > env.now + 300 →
      ∀ a, get_streamer_token env st a false = ⟨Except.ok td.token, st, []⟩) ∧
    (∀ tok force, streamerHit env st force = none →
      (get_streamer_token env st (some tok) force).calls = [quoteCall tok] ∧
      (get_streamer_token env st (some tok) force).state.access_token_data
        = st.access_token_data) := by
  constructor
  · intro td h hf a
    have hhit : streamerHit env st false = some td.token := by
      simp [streamerHit, h, hf]
    simp [get_streamer_token, hhit]
  · intro tok force hmiss
    rw [get_streamer_token_supplied env st tok force hmiss]
    refine ⟨?_, refreshStreamerToken_access_frame env st tok []⟩
    rw [refreshStreamerToken_calls]
    simp

/-- Witness for C8: with a fresh streamer entry the run is identical for a
supplied token, a different supplied token, and no token; forced past the
cache, a supplied token produces exactly its own Bearer request and leaves
the access slot alone. -/
theorem streamer_access_arg_independence_witness :
    get_streamer_token envGood stWarm (some (Jv.str "A")) false
      = ⟨Except.ok (Jv.str "STold"), stWarm, []⟩ ∧
    get_streamer_token envGood stWarm (some (Jv.str "B")) false
      = ⟨Except.ok (Jv.str "STold"), stWarm, []⟩ ∧
    get_streamer_token envGood stWarm none false
      = ⟨Except.ok (Jv.str "STold"), stWarm, []⟩ ∧
    (get_streamer_token envGood stWarm (some (Jv.str "B")) true).calls
      = [quoteCall (Jv.str "B")] ∧
    (get_streamer_token envGood stWarm (some (Jv.str "B")) true).state.access_token_data
      = stWarm.access_token_data :=
  ⟨(streamer_access_arg_independence envGood stWarm).1 ⟨Jv.str "STold", 1301⟩ rfl
      (by decide) (some (Jv.str "A")),
   (streamer_access_arg_independence envGood stWarm).1 ⟨Jv.str "STold", 1301⟩ rfl
      (by decide) (some (Jv.str "B")),
   (streamer_access_arg_independence envGood stWarm).1 ⟨Jv.str "STold", 1301⟩ rfl
      (by decide) none,
   (streamer_access_arg_independence envGood stWarm).2 (Jv.str "B") true rfl⟩

/-- C9: the access acquisition never writes the streamer slot and never
reads it (its result, trace and access slot agree across any two states
sharing the access entry); the streamer acquisition with a supplied access
token never writes the access slot. -/
theorem acquisition_frame (env : Env) (st : SessionState) :
    (∀ force, (get_access_token env st force).state.streamer_token_data
      = st.streamer_token_data) ∧
    (∀ force st', st.access_token_data = st'.access_token_data →
      (get_access_token env st force).result = (get_access_token env st' force).result ∧
      (get_access_token env st force).calls = (get_access_token env st' force).calls ∧
      (get_access_token env st force).state.access_token_data
        = (get_access_token env st' force).state.access_token_data) ∧
    (∀ tok force, (get_streamer_token env st (some tok) force).state.access_token_data
      = st.access_token_data) := by
  refine ⟨?_, ?_, ?_⟩
  · intro force
    cases hhit : accessHit env st force with
    | some v =>
      rw [get_access_token_of_hit env st force v hhit]
    | none =>
      rw [get_access_token_of_miss env st force hhit]
      exact refreshAccessToken_streamer_frame env st
  · intro force st' h
    have hhits : accessHit env st force = accessHit env st' force := by
      unfold accessHit
      rw [h]
    cases hhit : accessHit env st' force with
    | some v =>
      rw [get_access_token_of_hit env st force v (hhits.trans hhit),
        get_access_token_of_hit env st' force v hhit]
      exact ⟨rfl, rfl, h⟩
    | none =>
      rw [get_access_token_of_miss env st force (hhits.trans hhit),
        get_access_token_of_miss env st' force hhit]
      obtain ⟨h1, h2, hok, herr⟩ := refreshAccessToken_const env st st'
      refine ⟨h1, h2, ?_⟩
      cases hr : (refreshAccessToken env st).result with
      | ok v => exact hok v hr
      | error e =>
        obtain ⟨hs1, hs2⟩ := herr e hr
        rw [hs1, hs2]
        exact h
  · intro tok force
    cases hhit : streamerHit env st force with
    | some v =>
      have hrun : get_streamer_token env st (some tok) force = ⟨Except.ok v, st, []⟩ := by
        simp [get_streamer_token, hhit]
      rw [hrun]
    | none =>
      rw [get_streamer_token_supplied env st tok force hhit]
      exact refreshStreamerToken_access_frame env st tok []

/-- Witness for C9: a forced access refresh leaves the streamer entry alone;
two states differing only in the streamer slot produce the same access run;
a forced supplied-token streamer refresh leaves the access entry alone. -/
theorem acquisition_frame_witness :
    (get_access_token envGood stWarm true).state.streamer_token_data
      = stWarm.streamer_token_data ∧
    (get_access_token envGood stWarm false).result
      = (get_access_token envGood ⟨stWarm.access_token_data, none⟩ false).result ∧
    (get_streamer_token envGood stWarm (some (Jv.str "A")) true).state.access_token_data
      = stWarm.access_token_data :=
  ⟨(acquisition_frame envGood stWarm).1 true,
   ((acquisition_frame envGood stWarm).2.1 false ⟨stWarm.access_token_data, none⟩ rfl).1,
   (acquisition_frame envGood stWarm).2.2 (Jv.str "A") true⟩

/-- C10: a success-status response whose body lacks the required field makes
the acquisition fail with the corresponding key lookup error and leaves the
whole session state unchanged, because the cache write follows the
extraction. -/
theorem malformed_success_preserves_cache (env : Env) (st : SessionState) :
    (∀ force creds, load_credentials env = Except.ok creds →
      accessHit env st force = none →
      (env.http (oauthCall creds)).status_code = 200 →
      jGet (env.http (oauthCall creds)).json "access_token" = none →
      (get_access_token env st force).result = Except.error (Err.keyError "access_token") ∧
      (get_access_token env st force).state = st) ∧
    (∀ force atok, streamerHit env st force = none →
      (env.http (quoteCall atok)).status_code = 200 →
      (jGet (env.http (quoteCall atok)).json "data").bind (fun d => jGet d "token") = none →
      (∃ k, (get_streamer_token env st (some atok) force).result
        = Except.error (Err.keyError k)) ∧
      (get_streamer_token env st (some atok) force).state = st) := by
  constructor
  · intro force creds hc hmiss hs htok
    rw [get_access_token_of_miss env st force hmiss]
    simp [refreshAccessToken, hc, hs, htok]
  · intro force atok hmiss hs hnone
    rw [get_streamer_token_supplied env st atok force hmiss]
    cases hd : jGet (env.http (quoteCall atok)).json "data" with
    | none =>
      refine ⟨⟨"data", ?_⟩, ?_⟩ <;> simp [refreshStreamerToken, hs, hd]
    | some d =>
      rw [hd] at hnone
      simp only [Option.some_bind] at hnone
      refine ⟨⟨"token", ?_⟩, ?_⟩ <;> simp [refreshStreamerToken, hs, hd, hnone]

/-- Witness for C10 in the empty-body success world: both acquisitions fail
with a key lookup error and the stale cache survives intact. -/
theorem malformed_success_preserves_cache_witness :
    ((get_access_token envMalformed stStale false).result
        = Except.error (Err.keyError "access_token") ∧
      (get_access_token envMalformed stStale false).state = stStale) ∧
    ((∃ k, (get_streamer_token envMalformed stStale (some (Jv.str "A")) false).result
        = Except.error (Err.keyError k)) ∧
      (get_streamer_token envMalformed stStale (some (Jv.str "A")) false).state
        = stStale) :=
  ⟨(malformed_success_preserves_cache envMalformed stStale).1 false ⟨"c1", "s1", "r1"⟩
      rfl rfl rfl rfl,
   (malformed_success_preserves_cache envMalformed stStale).2 false (Jv.str "A")
      rfl rfl rfl⟩

end TastyAuth
